import Mathlib

/-!
Verification development for the android-world custom-agent repository.

Python strings are embedded as `List Char` (`Str`); Python dicts that the
code iterates in insertion order are embedded as association lists; machine
floats that the claims never compute with (wall-clock timestamps) are
embedded as integers; fallible calls (subprocess invocations, SDK calls,
device operations) are embedded as explicit outcome values `Subproc` /
`Except`.  Each definition mirrors one function or class of the source
files `custom_agent.py`, `gbox_device_controller.py` and
`device_registration.py`.
-/

/-- Python strings, embedded as character lists. -/
abbrev Str := List Char

/-- Characters removed by Python `str.strip()` (ASCII whitespace). -/
def pyIsSpace (c : Char) : Bool :=
  c == ' ' || c == '\t' || c == '\n' || c == '\r' || c == '\x0b' || c == '\x0c'

/-- Python `str.lstrip()`. -/
def pyLstrip (s : Str) : Str := s.dropWhile pyIsSpace

/-- Python `str.rstrip()`. -/
def pyRstrip (s : Str) : Str := (s.reverse.dropWhile pyIsSpace).reverse

/-- Python `str.strip()`. -/
def pystrip (s : Str) : Str := pyRstrip (pyLstrip s)

/-- Python `str.split(sep)` for a single-character separator. -/
def splitOnChar (sep : Char) : Str → List Str
  | [] => [[]]
  | c :: cs =>
    match splitOnChar sep cs with
    | [] => [[]]
    | r :: rs => if c == sep then [] :: r :: rs else (c :: r) :: rs

/-- Python `c in s` for a single character. -/
def containsChar (c : Char) (s : Str) : Bool := s.any (fun x => x == c)

/-- Python `sub in s` (substring containment): `sub` is a prefix of some
suffix of `s`. -/
def pyIn (sub : Str) : Str → Bool
  | [] => List.isPrefixOf sub []
  | c :: cs => List.isPrefixOf sub (c :: cs) || pyIn sub cs

/-- Python `s.replace(a, b)` for single-character `a`, `b`. -/
def replaceChar (a b : Char) (s : Str) : Str :=
  s.map (fun c => if c == a then b else c)

/-- Python `s.lower()` restricted to ASCII, as used on device model strings. -/
def pyLower (s : Str) : Str := s.map Char.toLower

/-- Python `s.startswith(p)`. -/
def pyStartswith (p s : Str) : Bool := List.isPrefixOf p s

/-- Digit character for a value below ten (Python decimal formatting). -/
def digitChar (d : Nat) : Char := Char.ofNat (48 + d)

/-- Decimal digits of a natural number, least significant first, computed
with explicit fuel so that the definition reduces in the kernel. -/
def natDigitsRevAux : Nat → Nat → List Char
  | 0, _ => []
  | fuel + 1, n =>
    if n < 10 then [digitChar n] else digitChar (n % 10) :: natDigitsRevAux fuel (n / 10)

/-- Decimal digits of a natural number, least significant first. -/
def natDigitsRev (n : Nat) : List Char := natDigitsRevAux (n + 1) n

/-- Python `str(n)` / f-string rendering of a non-negative integer. -/
def natToStr (n : Nat) : Str := (natDigitsRev n).reverse

/-! ## Model of `custom_agent.py` -/

/-- One call against the `DeviceController` capability interface
(`custom_agent.py`, class `DeviceController`). -/
inductive DeviceOp where
  | click (x y : Int)
  | swipe (sx sy ex ey : Int) (duration : Int)
  | type_text (t : Str)
  | press_key (k : Str)
deriving DecidableEq, Repr

/-- Behaviour of a bound device-controller backend: each issued operation
either returns a boolean or raises an exception (carried as its message). -/
def DevBeh := DeviceOp → Except Str Bool

/-- Run a scripted operation sequence against a backend: operations are
issued in order, return values are ignored (as the handlers in
`custom_agent.py` ignore them), and the first raised exception aborts the
rest.  Returns the outcome together with the trace of operations issued. -/
def runOps (beh : DevBeh) : List DeviceOp → Except Str Unit × List DeviceOp
  | [] => (Except.ok (), [])
  | op :: ops =>
    match beh op with
    | Except.error e => (Except.error e, [op])
    | Except.ok _ =>
      let r := runOps beh ops
      (r.1, op :: r.2)

/-- Scripted sequence of `TaskExecutor._execute_recipe_task`
(`custom_agent.py` lines 114-126); the `time.sleep` pacing calls have no
observable effect in the model. -/
def recipeOps : List DeviceOp :=
  [DeviceOp.click 500 1200, DeviceOp.type_text ("Test Recipe".toList), DeviceOp.click 500 1400]

/-- Scripted sequence of `TaskExecutor._execute_calendar_task`
(`custom_agent.py` lines 128-139). -/
def calendarOps : List DeviceOp :=
  [DeviceOp.click 500 1200, DeviceOp.type_text ("Test Event".toList), DeviceOp.click 500 1400]

/-- Task parameters (`task_params`); the handlers never read them. -/
abbrev Params := List (Str × Str)

/-- `TaskExecutor._execute_recipe_task`: issues `recipeOps`, returns `True`
when the sequence completes, propagates a raised exception. -/
def _execute_recipe_task (beh : DevBeh) (_params : Params) : Except Str Bool × List DeviceOp :=
  let r := runOps beh recipeOps
  (r.1.map (fun _ => true), r.2)

/-- `TaskExecutor._execute_calendar_task`: issues `calendarOps`, returns
`True` when the sequence completes, propagates a raised exception. -/
def _execute_calendar_task (beh : DevBeh) (_params : Params) : Except Str Bool × List DeviceOp :=
  let r := runOps beh calendarOps
  (r.1.map (fun _ => true), r.2)

/-- `TaskExecutor._execute_generic_task`: issues no device operations and
returns `True` (`custom_agent.py` lines 141-147). -/
def _execute_generic_task (_task_name : Str) (_params : Params) : Except Str Bool × List DeviceOp :=
  (Except.ok true, [])

/-- Dispatch of `TaskExecutor.execute_task` (`custom_agent.py` lines
89-95): exact name match against the two named handlers, generic fallback
otherwise.  Returns the dispatched handler's outcome and device-op trace. -/
def dispatch_task (beh : DevBeh) (task_name : Str) (task_params : Params) :
    Except Str Bool × List DeviceOp :=
  if task_name == ("RecipeAddMultipleRecipes".toList) then
    _execute_recipe_task beh task_params
  else if task_name == ("SimpleCalendarAddOneEvent".toList) then
    _execute_calendar_task beh task_params
  else
    _execute_generic_task task_name task_params

/-- The result dict built by `TaskExecutor.execute_task` (`custom_agent.py`
lines 103-109); wall-clock values are carried as integers. -/
structure TaskResult where
  task_name : Str
  success : Bool
  execution_time : Int
  error_message : Option Str
  timestamp : Int
deriving DecidableEq, Repr

/-- State of a `TaskExecutor` (`custom_agent.py` lines 77-79). -/
structure TaskExecutor where
  task_history : List TaskResult
deriving DecidableEq, Repr

/-- Outcome of one `execute_task` call: the returned result, the updated
executor state, and the trace of device operations issued. -/
structure ExecOutcome where
  result : TaskResult
  executor : TaskExecutor
  trace : List DeviceOp
deriving DecidableEq, Repr

/-- `TaskExecutor.execute_task` (`custom_agent.py` lines 81-112):
`success` starts `False`, the dispatched handler runs inside `try`, any
exception is caught and its message recorded as `error_message`, otherwise
the handler's boolean becomes `success`; exactly one result is appended to
`task_history`.  `start_time` and `elapsed` stand for the two `time.time()`
readings. -/
def execute_task (beh : DevBeh) (st : TaskExecutor) (task_name : Str) (task_params : Params)
    (start_time elapsed : Int) : ExecOutcome :=
  let d := dispatch_task beh task_name task_params
  let sm : Bool × Option Str :=
    match d.1 with
    | Except.ok b => (b, none)
    | Except.error e => (false, some e)
  let result : TaskResult := ⟨task_name, sm.1, elapsed, sm.2, start_time⟩
  ⟨result, ⟨st.task_history ++ [result]⟩, d.2⟩

/-- One queued call to `execute_task`: task name, params, and the two
clock readings. -/
structure TaskCall where
  name : Str
  params : Params
  start_time : Int
  elapsed : Int
deriving DecidableEq, Repr

/-- Run a sequence of `execute_task` calls, threading the executor state. -/
def run_tasks (beh : DevBeh) (st : TaskExecutor) : List TaskCall → TaskExecutor
  | [] => st
  | c :: rest =>
    run_tasks beh (execute_task beh st c.name c.params c.start_time c.elapsed).executor rest

/-- The results produced by a sequence of calls, in call order (each
result is independent of the history already accumulated). -/
def task_results (beh : DevBeh) (calls : List TaskCall) : List TaskResult :=
  calls.map (fun c => (execute_task beh ⟨[]⟩ c.name c.params c.start_time c.elapsed).result)

/-! ## Model of `gbox_device_controller.py` -/

/-- Python exception kinds raised by the modelled code paths. -/
inductive PyErr where
  | typeError (msg : Str)
  | valueError (msg : Str)
  | runtimeError (msg : Str)
  | attributeError (msg : Str)
deriving DecidableEq, Repr

/-- Names of the abstract methods declared on `DeviceController`
(`custom_agent.py` lines 17-43). -/
def deviceControllerAbstractMethods : List Str :=
  ["click".toList, "swipe".toList, "type_text".toList, "press_key".toList,
   "get_screen_info".toList]

/-- Names of the methods defined in the class body of
`GBOXDeviceController` (`gbox_device_controller.py` lines 21-127). -/
def gboxDeviceControllerMethods : List Str :=
  ["__init__".toList, "_initialize_gbox".toList, "click".toList, "type_text".toList,
   "swipe".toList, "get_screen_text".toList, "take_screenshot".toList,
   "is_connected".toList, "get_device_info".toList]

/-- Names of the methods defined in the class body of
`GBOXLocalDeviceController` (`gbox_device_controller.py` lines 129-237). -/
def gboxLocalDeviceControllerMethods : List Str :=
  ["__init__".toList, "_initialize_local_gbox".toList, "click".toList, "type_text".toList,
   "swipe".toList, "get_screen_text".toList, "take_screenshot".toList,
   "is_connected".toList, "get_device_info".toList]

/-- Abstract methods of `DeviceController` left unimplemented by a
subclass with the given method set. -/
def unimplementedAbstract (methods : List Str) : List Str :=
  deviceControllerAbstractMethods.filter (fun m => !methods.contains m)

/-- Python truthiness of an optional string (`None` and `""` are falsy). -/
def pyTruthyOptStr : Option Str → Bool
  | none => false
  | some s => !s.isEmpty

/-- Python `a or b` on optional strings (as in
`gbox_api_key or os.getenv('GBOX_API_KEY')`). -/
def pyOrOpt (a b : Option Str) : Option Str :=
  if pyTruthyOptStr a then a else b

/-- CPython `object.__init__` invoked with one extra positional argument
(what `super().__init__(device_id)` resolves to, `DeviceController` and
`ABC` defining no initializer): raises `TypeError`. -/
def object_init_with_arg (_arg : Str) : Except PyErr Unit :=
  Except.error (PyErr.typeError
    ("object.__init__() takes exactly one argument (the instance to initialize)".toList))

/-- Body of `GBOXDeviceController.__init__` /
`GBOXLocalDeviceController.__init__` (`gbox_device_controller.py` lines
24-36 and 132-144; the two bodies are line-for-line identical apart from
which `_initialize_*` helper runs, carried here as `initialize_outcome`,
the outcome of the backend SDK connection attempt).  Steps in source
order: `super().__init__(device_id)`, the API-key fallback and check, the
SDK-availability check, then the backend initialisation. -/
def gbox_init_body (initialize_outcome : Except PyErr Unit) (device_id : Str)
    (gbox_api_key env_api_key : Option Str) (gbox_available : Bool) : Except PyErr Unit :=
  match object_init_with_arg device_id with
  | Except.error e => Except.error e
  | Except.ok _ =>
    let key := pyOrOpt gbox_api_key env_api_key
    if !pyTruthyOptStr key then
      Except.error (PyErr.valueError ("GBOX_API_KEY environment variable required".toList))
    else if gbox_available then
      initialize_outcome
    else
      Except.error (PyErr.runtimeError ("GBOX SDK not available".toList))

/-- CPython instantiation of an `ABC` subclass: if any abstract method of
the base remains unimplemented the call raises `TypeError` before
`__init__` runs; otherwise the `__init__` body runs. -/
def instantiate_controller (methods : List Str) (init_body : Except PyErr Unit) :
    Except PyErr Unit :=
  if (unimplementedAbstract methods).isEmpty then init_body
  else
    Except.error (PyErr.typeError
      ("cannot instantiate abstract class with abstract methods".toList))

/-- `GBOXDeviceController(device_id, gbox_api_key)` with environment value
`env_api_key`, SDK-import flag `gbox_available`, and backend-connection
outcome `initialize_outcome`. -/
def GBOXDeviceController_new (device_id : Str) (gbox_api_key env_api_key : Option Str)
    (gbox_available : Bool) (initialize_outcome : Except PyErr Unit) : Except PyErr Unit :=
  instantiate_controller gboxDeviceControllerMethods
    (gbox_init_body initialize_outcome device_id gbox_api_key env_api_key gbox_available)

/-- `GBOXLocalDeviceController(device_id, gbox_api_key)`, as above. -/
def GBOXLocalDeviceController_new (device_id : Str) (gbox_api_key env_api_key : Option Str)
    (gbox_available : Bool) (initialize_outcome : Except PyErr Unit) : Except PyErr Unit :=
  instantiate_controller gboxLocalDeviceControllerMethods
    (gbox_init_body initialize_outcome device_id gbox_api_key env_api_key gbox_available)

/-- Python attribute lookup for methods on a controller instance: the
class body first, then the `DeviceController` base (the full MRO up to
`object`, which contributes none of the names asked about here). -/
def controller_has_attr (classMethods : List Str) (name : Str) : Bool :=
  classMethods.contains name || deviceControllerAbstractMethods.contains name

/-! ## Model of `device_registration.py` -/

/-- Result of a completed `subprocess.run` call: exit code and captured
output streams. -/
structure SubprocResult where
  returncode : Int
  stdout : Str
  stderr : Str
deriving DecidableEq, Repr

/-- Outcome of a `subprocess.run` call: it either completes or raises
(e.g. `TimeoutExpired`); the exception is carried as its message. -/
inductive Subproc where
  | ok (r : SubprocResult)
  | raise (e : Str)
deriving DecidableEq, Repr

/-- A connected-device entry built by
`DeviceRegistration.get_connected_devices`. -/
structure ConnDevice where
  id : Str
  status : Str
  typ : Str
deriving DecidableEq, Repr

/-- `DeviceRegistration._get_device_type` (`device_registration.py` lines
59-85): `emulator-` id prefix wins, else one bridge query of
`ro.product.model` (outcome supplied by `propQuery`), classified by
substring match; non-zero exit gives `unknown`, an exception gives
`unknown`. -/
def get_device_type (propQuery : Str → Subproc) (device_id : Str) : Str :=
  if pyStartswith ("emulator-".toList) device_id then "emulator".toList
  else
    match propQuery ("ro.product.model".toList) with
    | Subproc.raise _ => "unknown".toList
    | Subproc.ok r =>
      if r.returncode == 0 then
        let model := pystrip r.stdout
        if pyIn ("sdk".toList) (pyLower model) || pyIn ("emulator".toList) (pyLower model) then
          "emulator".toList
        else
          "physical".toList
      else
        "unknown".toList

/-- Loop body of `get_connected_devices` (`device_registration.py` lines
42-50): each kept line is unpacked as `device_id, status = line.split('\t')`,
which raises `ValueError` unless the split has exactly two fields; rows
whose status is `device` are collected. -/
def parse_device_lines (propQuery : Str → Subproc) : List Str → Except Str (List ConnDevice)
  | [] => Except.ok []
  | line :: rest =>
    if pystrip line ≠ [] ∧ containsChar '\t' line then
      match splitOnChar '\t' line with
      | [did, status] =>
        match parse_device_lines propQuery rest with
        | Except.ok ds =>
          Except.ok (if status == ("device".toList) then
            ⟨did, status, get_device_type propQuery did⟩ :: ds
          else ds)
        | Except.error e => Except.error e
      | _ => Except.error ("not enough or too many values to unpack".toList)
    else parse_device_lines propQuery rest

/-- `DeviceRegistration.get_connected_devices` (`device_registration.py`
lines 25-57): run the bridge `devices` command (`adbDevices` outcome),
return `[]` on non-zero exit, split stripped stdout on newlines, skip the
header line, parse the remaining rows; any raised exception (including
the unpack `ValueError` and a bridge timeout) is caught and yields `[]`. -/
def get_connected_devices (adbDevices : Subproc) (propQuery : Str → Subproc) :
    List ConnDevice :=
  match adbDevices with
  | Subproc.raise _ => []
  | Subproc.ok result =>
    if result.returncode ≠ 0 then []
    else
      let lines := (splitOnChar '\n' (pystrip result.stdout)).drop 1
      match parse_device_lines propQuery lines with
      | Except.ok ds => ds
      | Except.error _ => []

/-- Splitting loop for a multi-character separator, with explicit fuel so
that the definition reduces in the kernel (each step consumes at least one
character, so `length + 1` units of fuel always suffice). -/
def splitOnStrAux (sep : Str) : Nat → Str → List Str
  | 0, _ => [[]]
  | _fuel + 1, [] => [[]]
  | fuel + 1, c :: cs =>
    if sep ≠ [] ∧ List.isPrefixOf sep (c :: cs) then
      match splitOnStrAux sep fuel (List.drop sep.length (c :: cs)) with
      | [] => [[]]
      | parts => [] :: parts
    else
      match splitOnStrAux sep fuel cs with
      | [] => [[]]
      | r :: rs => (c :: r) :: rs

/-- Python `s.split(sep)` for a multi-character separator (used for
`size_output.split('Physical size: ')`). -/
def splitOnStr (sep : Str) (s : Str) : List Str := splitOnStrAux sep (s.length + 1) s

/-- The five properties queried by `DeviceRegistration.get_device_info`
(`device_registration.py` lines 97-103), in source order. -/
def properties_list : List Str :=
  ["ro.product.model".toList, "ro.product.brand".toList, "ro.product.name".toList,
   "ro.build.version.release".toList, "ro.build.version.sdk".toList]

/-- Per-property loop of `get_device_info` (`device_registration.py` lines
105-117): each query runs in its own `try`; a raised exception stores
`unknown` for that key, a zero exit stores the stripped stdout, and a
non-zero exit stores nothing for that key. -/
def collect_props (propQuery : Str → Subproc) : List Str → List (Str × Str)
  | [] => []
  | p :: ps =>
    match propQuery p with
    | Subproc.raise _ => (p, "unknown".toList) :: collect_props propQuery ps
    | Subproc.ok r =>
      (if r.returncode == 0 then [(p, pystrip r.stdout)] else []) ++ collect_props propQuery ps

/-- Screen-size section of `get_device_info` (`device_registration.py`
lines 119-134): on zero exit, the key is set only when the marker text is
present and indexing `split('Physical size: ')[1]` succeeds; an
`IndexError` or any other exception in this block stores `unknown`; on a
non-zero exit the key is never set. -/
def screen_size_of (wmSize : Subproc) : Option Str :=
  match wmSize with
  | Subproc.raise _ => some ("unknown".toList)
  | Subproc.ok r =>
    if r.returncode == 0 then
      let size_output := pystrip r.stdout
      if pyIn ("Physical size:".toList) size_output then
        match (splitOnStr ("Physical size: ".toList) size_output).drop 1 with
        | [] => some ("unknown".toList)
        | part :: _ => some part
      else none
    else none

/-- The descriptor dict built by `DeviceRegistration.get_device_info`
(`device_registration.py` lines 87-141). -/
structure DeviceInfo where
  id : Str
  typ : Str
  properties : List (Str × Str)
  screen_size : Option Str
deriving DecidableEq, Repr

/-- `DeviceRegistration.get_device_info`: assembles id, type (via
`_get_device_type`), the five properties and the screen size; every
fallible sub-step is guarded by its own `try`, so the enclosing `try`
never fires and a descriptor is always returned. -/
def get_device_info (propQuery : Str → Subproc) (wmSize : Subproc) (device_id : Str) :
    DeviceInfo :=
  ⟨device_id, get_device_type propQuery device_id,
   collect_props propQuery properties_list, screen_size_of wmSize⟩

/-- A stored registration record (`device_registration.py` lines 186-190). -/
structure RegRecord where
  gbox_device_id : Str
  registration_time : Nat
  status : Str
deriving DecidableEq, Repr

/-- Python dict assignment `d[k] = v` on an insertion-ordered dict
embedded as an association list: overwrite in place when the key exists,
append otherwise. -/
def pyDictSet (k : Str) (v : RegRecord) (d : List (Str × RegRecord)) :
    List (Str × RegRecord) :=
  if d.any (fun kv => kv.1 == k) then
    d.map (fun kv => if kv.1 == k then (k, v) else kv)
  else d ++ [(k, v)]

/-- `DeviceRegistration.install_gbox_agent` (`device_registration.py`
lines 143-167): runs the package-list bridge command (`pmList` outcome)
and returns `True` whether or not the agent package shows up; only a
raised exception (caught by the method's `try`) yields `False`. -/
def install_gbox_agent (pmList : Subproc) (_device_id : Str) : Bool :=
  match pmList with
  | Subproc.raise _ => false
  | Subproc.ok r =>
    if pyIn ("ai.gbox.agent".toList) r.stdout then true else true

/-- `DeviceRegistration.register_with_gbox` (`device_registration.py`
lines 169-197): install the agent (fail with `None` and an unchanged map
when that fails), synthesise
`gbox_<device_id with '-'→'_'>_<int(time.time())>`, store the record
under `device_id` (overwriting any previous entry), and return the new
id.  `t` stands for the current `time.time()` reading truncated to
seconds.  The `gbox_api_key` parameter is carried exactly as in source. -/
def register_with_gbox (pmList : Subproc) (st : List (Str × RegRecord)) (device_id : Str)
    (gbox_api_key : Str) (t : Nat) : Option Str × List (Str × RegRecord) :=
  if !install_gbox_agent pmList device_id then (none, st)
  else
    let gbox_device_id :=
      ("gbox_".toList) ++ replaceChar '-' '_' device_id ++ ("_".toList) ++ natToStr t
    let record : RegRecord := ⟨gbox_device_id, t, "registered".toList⟩
    (some gbox_device_id, pyDictSet device_id record st)

/-- Keys of the registration map are pairwise distinct (the dict
invariant an association-list embedding must preserve). -/
def keysUnique (d : List (Str × RegRecord)) : Prop :=
  (d.map Prod.fst).Nodup

instance (d : List (Str × RegRecord)) : Decidable (keysUnique d) := by
  unfold keysUnique; infer_instance

/-- Number of entries stored under a given device id. -/
def countKey (k : Str) (d : List (Str × RegRecord)) : Nat :=
  (d.filter (fun kv => kv.1 == k)).length

/-- A well-formed device row of the bridge `devices` listing: id and
status fields, rendered tab-separated. -/
def renderRow (r : Str × Str) : Str := r.1 ++ '\t' :: r.2

/-! ## Helper lemmas -/

theorem run_tasks_history (beh : DevBeh) (calls : List TaskCall) :
    ∀ st : TaskExecutor,
      (run_tasks beh st calls).task_history = st.task_history ++ task_results beh calls := by
  induction calls with
  | nil => intro st; simp [run_tasks, task_results]
  | cons c rest ih =>
    intro st
    rw [run_tasks, ih]
    simp [execute_task, task_results, List.append_assoc]

/-! ## Claims -/

/-- Claim C1 (code bug): constructing `GBOXDeviceController` with no API
key — the exact scenario the module's own `__main__` block exercises,
expecting a `ValueError` — raises `TypeError` instead, and so does the
`__init__` body itself at `super().__init__(device_id)`, before the API-key
check is ever reached; the promised configuration `ValueError` can never
escape. -/
theorem c1_missing_api_key_raises_typeerror_not_valueerror :
    GBOXDeviceController_new ("test_device".toList) none none true (Except.ok ())
      = Except.error (PyErr.typeError
          ("cannot instantiate abstract class with abstract methods".toList))
    ∧ (∀ msg : Str,
        GBOXDeviceController_new ("test_device".toList) none none true (Except.ok ())
          ≠ Except.error (PyErr.valueError msg))
    ∧ gbox_init_body (Except.ok ()) ("test_device".toList) none none true
      = Except.error (PyErr.typeError
          ("object.__init__() takes exactly one argument (the instance to initialize)".toList)) := by
  refine ⟨rfl, ?_, rfl⟩
  intro msg h
  rw [show GBOXDeviceController_new ("test_device".toList) none none true (Except.ok ())
    = Except.error (PyErr.typeError
        ("cannot instantiate abstract class with abstract methods".toList)) from rfl] at h
  simp at h

/-- Claim C2: for every combination of constructor arguments, environment
value, SDK availability and backend outcome, instantiating
`GBOXDeviceController` or `GBOXLocalDeviceController` raises `TypeError`
before any backend call (the outcome does not depend on the backend), the
unimplemented abstract methods being exactly `press_key` and
`get_screen_info`. -/
theorem c2_constructors_always_raise_typeerror (device_id : Str)
    (gbox_api_key env_api_key : Option Str) (gbox_available : Bool)
    (initialize_outcome : Except PyErr Unit) :
    GBOXDeviceController_new device_id gbox_api_key env_api_key gbox_available
        initialize_outcome
      = Except.error (PyErr.typeError
          ("cannot instantiate abstract class with abstract methods".toList))
    ∧ GBOXLocalDeviceController_new device_id gbox_api_key env_api_key gbox_available
        initialize_outcome
      = Except.error (PyErr.typeError
          ("cannot instantiate abstract class with abstract methods".toList))
    ∧ unimplementedAbstract gboxDeviceControllerMethods
      = ["press_key".toList, "get_screen_info".toList]
    ∧ unimplementedAbstract gboxLocalDeviceControllerMethods
      = ["press_key".toList, "get_screen_info".toList] :=
  ⟨rfl, rfl, by decide, by decide⟩

/-- Claim C3 (code bug): neither remote controller variant defines a
`close` (or `close_box`) operation at all — attribute lookup on either
class and its base finds no such method, so the release-the-session
operation the spec promises does not exist, and the repository's own
integration test call `controller.close_box()` would raise
`AttributeError`. -/
theorem c3_no_close_operation_defined :
    controller_has_attr gboxDeviceControllerMethods ("close".toList) = false
    ∧ controller_has_attr gboxDeviceControllerMethods ("close_box".toList) = false
    ∧ controller_has_attr gboxLocalDeviceControllerMethods ("close".toList) = false
    ∧ controller_has_attr gboxLocalDeviceControllerMethods ("close_box".toList) = false := by
  decide

/-- Claim C4: for every task name, parameter mapping, backend behaviour
and executor state, `execute_task` records exactly the dispatched
handler's raised exception message as `error_message` with
`success = false`, and when no exception is raised it records no error
message and the handler's returned boolean as `success`. -/
theorem c4_execute_task_error_boundary (beh : DevBeh) (st : TaskExecutor) (task_name : Str)
    (task_params : Params) (start_time elapsed : Int) :
    (execute_task beh st task_name task_params start_time elapsed).result.error_message
      = (match (dispatch_task beh task_name task_params).1 with
         | Except.ok _ => none
         | Except.error e => some e)
    ∧ (execute_task beh st task_name task_params start_time elapsed).result.success
      = (match (dispatch_task beh task_name task_params).1 with
         | Except.ok b => b
         | Except.error _ => false) := by
  cases hd : (dispatch_task beh task_name task_params).1 with
  | ok b => exact ⟨by simp [execute_task, hd], by simp [execute_task, hd]⟩
  | error e => exact ⟨by simp [execute_task, hd], by simp [execute_task, hd]⟩

/-- Claim C5: every `execute_task` call appends exactly one result: after
any sequence of calls the history is the initial history followed by the
per-call results in execution order (so prior entries are never mutated,
reordered or pruned), and from a fresh executor the history length equals
the number of calls. -/
theorem c5_history_append_only (beh : DevBeh) (st : TaskExecutor) (calls : List TaskCall) :
    (run_tasks beh st calls).task_history = st.task_history ++ task_results beh calls
    ∧ (task_results beh calls).length = calls.length
    ∧ (run_tasks beh ⟨[]⟩ calls).task_history.length = calls.length :=
  ⟨run_tasks_history beh calls st,
   by simp [task_results],
   by simp [run_tasks_history beh calls ⟨[]⟩, task_results]⟩

/-- Claim C6: any task name outside the two named handlers dispatches to
the generic handler, which issues no device operations and yields
`success = true`, for every backend behaviour and parameter mapping. -/
theorem c6_generic_handler_no_device_ops (beh : DevBeh) (st : TaskExecutor) (task_name : Str)
    (task_params : Params) (start_time elapsed : Int)
    (h1 : task_name ≠ ("RecipeAddMultipleRecipes".toList))
    (h2 : task_name ≠ ("SimpleCalendarAddOneEvent".toList)) :
    (execute_task beh st task_name task_params start_time elapsed).trace = []
    ∧ (execute_task beh st task_name task_params start_time elapsed).result.success = true := by
  have b1 : (task_name == ("RecipeAddMultipleRecipes".toList)) = false :=
    beq_eq_false_iff_ne.mpr h1
  have b2 : (task_name == ("SimpleCalendarAddOneEvent".toList)) = false :=
    beq_eq_false_iff_ne.mpr h2
  refine ⟨?_, ?_⟩ <;>
  · simp only [execute_task, dispatch_task, _execute_generic_task, b1, b2]
    simp

/-- Witness for C6: the unrecognised task name `FooBarTask` with empty
params, against a backend on which every operation would raise, issues no
operation and reports success. -/
theorem c6_generic_handler_no_device_ops_witness :
    (("FooBarTask".toList ≠ ("RecipeAddMultipleRecipes".toList))
      ∧ ("FooBarTask".toList ≠ ("SimpleCalendarAddOneEvent".toList)))
    ∧ ((execute_task (fun _ => Except.error ("boom".toList)) ⟨[]⟩ ("FooBarTask".toList)
          [] 0 0).trace = []
       ∧ (execute_task (fun _ => Except.error ("boom".toList)) ⟨[]⟩ ("FooBarTask".toList)
          [] 0 0).result.success = true) :=
  ⟨⟨by decide, by decide⟩,
   c6_generic_handler_no_device_ops (fun _ => Except.error ("boom".toList)) ⟨[]⟩
     ("FooBarTask".toList) [] 0 0 (by decide) (by decide)⟩

/-- Claim C10: `register_with_gbox` never reads its `gbox_api_key`
argument — for any two key values and identical device id, registry
state, bridge outcome and clock, the returned session id and the stored
registration map are identical. -/
theorem c10_register_ignores_api_key (pmList : Subproc) (st : List (Str × RegRecord))
    (device_id : Str) (key1 key2 : Str) (t : Nat) :
    register_with_gbox pmList st device_id key1 t
      = register_with_gbox pmList st device_id key2 t := rfl

theorem splitOnChar_ne_nil (sep : Char) (s : Str) : splitOnChar sep s ≠ [] := by
  cases s with
  | nil => simp [splitOnChar]
  | cons c cs =>
    simp only [splitOnChar]
    cases splitOnChar sep cs with
    | nil => simp
    | cons r rs =>
      by_cases hc : c = sep
      · simp [hc]
      · simp [hc]

theorem splitOnChar_no_sep (sep : Char) : ∀ s : Str, containsChar sep s = false →
    splitOnChar sep s = [s] := by
  intro s
  induction s with
  | nil => intro _; rfl
  | cons c cs ih =>
    intro h
    rw [containsChar, List.any_cons, Bool.or_eq_false_iff] at h
    simp only [splitOnChar, ih h.2]
    simp [h.1]

theorem splitOnChar_append (sep : Char) : ∀ a b : Str, containsChar sep a = false →
    splitOnChar sep (a ++ sep :: b) = a :: splitOnChar sep b := by
  intro a
  induction a with
  | nil =>
    intro b _
    simp only [List.nil_append, splitOnChar]
    cases h : splitOnChar sep b with
    | nil => exact absurd h (splitOnChar_ne_nil sep b)
    | cons r rs => simp
  | cons c a' ih =>
    intro b h
    rw [containsChar, List.any_cons, Bool.or_eq_false_iff] at h
    rw [List.cons_append]
    simp only [splitOnChar]
    rw [ih b h.2]
    simp [h.1]

theorem pystrip_nil_all_space (s : Str) (h : pystrip s = []) :
    ∀ c ∈ s, pyIsSpace c = true := by
  intro c hc
  have hdrop : List.dropWhile pyIsSpace (pyLstrip s).reverse = [] := by
    unfold pystrip pyRstrip at h
    exact List.reverse_eq_nil_iff.mp h
  have h1 : ∀ x ∈ pyLstrip s, pyIsSpace x = true := by
    intro x hx
    exact List.dropWhile_eq_nil_iff.mp hdrop x (List.mem_reverse.mpr hx)
  rcases List.mem_append.mp
      (by rw [List.takeWhile_append_dropWhile (p := pyIsSpace)]; exact hc) with h3 | h3
  · exact List.mem_takeWhile_imp h3
  · exact h1 c h3

theorem parse_render (propQuery : Str → Subproc) :
    ∀ rows : List (Str × Str),
      (∀ r ∈ rows, containsChar '\t' r.1 = false ∧ containsChar '\t' r.2 = false) →
      parse_device_lines propQuery (rows.map renderRow)
        = Except.ok ((rows.filter (fun r => r.2 == ("device".toList))).map
            (fun r => (⟨r.1, r.2, get_device_type propQuery r.1⟩ : ConnDevice))) := by
  intro rows
  induction rows with
  | nil => intro _; rfl
  | cons r rest ih =>
    intro h
    have hr := h r (List.mem_cons_self r rest)
    have hrest : ∀ x ∈ rest, containsChar '\t' x.1 = false ∧ containsChar '\t' x.2 = false :=
      fun x hx => h x (List.mem_cons_of_mem r hx)
    have hsplit : splitOnChar '\t' (renderRow r) = [r.1, r.2] := by
      rw [renderRow, splitOnChar_append '\t' r.1 r.2 hr.1, splitOnChar_no_sep '\t' r.2 hr.2]
    have hcont : containsChar '\t' (renderRow r) = true := by
      rw [renderRow]
      simp [containsChar]
    by_cases hs : pystrip (renderRow r) = []
    · have hdev : (r.2 == ("device".toList)) = false := by
        by_contra hb
        rw [Bool.not_eq_false, beq_iff_eq] at hb
        have hd : 'd' ∈ renderRow r := by
          rw [renderRow, hb]
          simp
        have hsp := pystrip_nil_all_space _ hs 'd' hd
        simp [pyIsSpace] at hsp
      simp only [List.map_cons, parse_device_lines]
      rw [if_neg (fun hcond => hcond.1 hs)]
      rw [ih hrest, List.filter_cons]
      rw [if_neg (by rw [hdev]; exact Bool.false_ne_true)]
    · simp only [List.map_cons, parse_device_lines]
      rw [if_pos ⟨hs, hcont⟩, hsplit, ih hrest, List.filter_cons]
      by_cases hb : (r.2 == ("device".toList)) = true
      · rw [if_pos hb]
        change Except.ok (if (r.2 == ("device".toList)) = true then _ else _) = _
        rw [if_pos hb]
        rfl
      · rw [Bool.not_eq_true] at hb
        rw [if_neg (by rw [hb]; exact Bool.false_ne_true)]
        change Except.ok (if (r.2 == ("device".toList)) = true then _ else _) = _
        rw [if_neg (by rw [hb]; exact Bool.false_ne_true)]

/-- Claim C7: for every bridge output whose stripped stdout splits into a
header line followed by well-formed tab-separated id/status rows,
`get_connected_devices` returns exactly the rows whose status equals
`device`, excluding the header and every row with any other status, each
classified through `_get_device_type`. -/
theorem c7_get_connected_devices_filters_ready (propQuery : Str → Subproc)
    (header stdout : Str) (rows : List (Str × Str))
    (hrows : ∀ r ∈ rows, containsChar '\t' r.1 = false ∧ containsChar '\t' r.2 = false)
    (hsplit : splitOnChar '\n' (pystrip stdout) = header :: rows.map renderRow) :
    get_connected_devices (Subproc.ok ⟨0, stdout, []⟩) propQuery
      = (rows.filter (fun r => r.2 == ("device".toList))).map
          (fun r => (⟨r.1, r.2, get_device_type propQuery r.1⟩ : ConnDevice)) := by
  simp only [get_connected_devices]
  rw [if_neg (by simp)]
  rw [hsplit]
  simp only [List.drop_succ_cons, List.drop_zero]
  rw [parse_render propQuery rows hrows]

/-- Witness for C7: a bridge stub listing two `device`-status rows and one
`offline`-status row yields exactly the two ready devices. -/
theorem c7_get_connected_devices_filters_ready_witness :
    (splitOnChar '\n' (pystrip
        ("List of devices attached\nemulator-5554\tdevice\nemulator-5556\toffline\nR58M123456\tdevice".toList))
      = ("List of devices attached".toList) ::
          ([(("emulator-5554".toList), ("device".toList)),
            (("emulator-5556".toList), ("offline".toList)),
            (("R58M123456".toList), ("device".toList))].map renderRow))
    ∧ get_connected_devices
        (Subproc.ok ⟨0,
          ("List of devices attached\nemulator-5554\tdevice\nemulator-5556\toffline\nR58M123456\tdevice".toList),
          []⟩) (fun _ => Subproc.ok ⟨0, [], []⟩)
      = (([(("emulator-5554".toList), ("device".toList)),
           (("emulator-5556".toList), ("offline".toList)),
           (("R58M123456".toList), ("device".toList))].filter
             (fun r => r.2 == ("device".toList))).map
          (fun r => (⟨r.1, r.2,
            get_device_type (fun _ => Subproc.ok ⟨0, [], []⟩) r.1⟩ : ConnDevice))) :=
  ⟨by decide,
   c7_get_connected_devices_filters_ready (fun _ => Subproc.ok ⟨0, [], []⟩)
     ("List of devices attached".toList)
     ("List of devices attached\nemulator-5554\tdevice\nemulator-5556\toffline\nR58M123456\tdevice".toList)
     [(("emulator-5554".toList), ("device".toList)),
      (("emulator-5556".toList), ("offline".toList)),
      (("R58M123456".toList), ("device".toList))]
     (by decide) (by decide)⟩

theorem collect_props_lookup_not_mem (propQuery : Str → Subproc) :
    ∀ ps : List Str, ∀ p : Str, p ∉ ps → (collect_props propQuery ps).lookup p = none := by
  intro ps
  induction ps with
  | nil => intro p _; rfl
  | cons q qs ih =>
    intro p hp
    have hpq : (p == q) = false :=
      beq_eq_false_iff_ne.mpr (fun h => hp (h ▸ List.mem_cons_self q qs))
    have hpqs : p ∉ qs := fun h => hp (List.mem_cons_of_mem q h)
    simp only [collect_props]
    cases propQuery q with
    | raise e => simp [List.lookup, hpq, ih p hpqs]
    | ok r =>
      by_cases hrc : (r.returncode == 0) = true
      · simp [hrc, List.lookup, hpq, ih p hpqs]
      · rw [Bool.not_eq_true] at hrc
        simp [hrc, ih p hpqs]

theorem collect_props_lookup_mem (propQuery : Str → Subproc) :
    ∀ ps : List Str, ps.Nodup → ∀ p ∈ ps,
      (collect_props propQuery ps).lookup p
        = (match propQuery p with
           | Subproc.raise _ => some ("unknown".toList)
           | Subproc.ok r =>
             if r.returncode == 0 then some (pystrip r.stdout) else none) := by
  intro ps
  induction ps with
  | nil => intro _ p hp; exact absurd hp (List.not_mem_nil p)
  | cons q qs ih =>
    intro hnd p hp
    rw [List.nodup_cons] at hnd
    rcases List.mem_cons.mp hp with hpq | hpqs
    · subst hpq
      simp only [collect_props]
      cases hq : propQuery p with
      | raise e => simp [List.lookup]
      | ok r =>
        by_cases hrc : (r.returncode == 0) = true
        · simp [hrc, List.lookup]
        · rw [Bool.not_eq_true] at hrc
          simp [hrc, collect_props_lookup_not_mem propQuery qs p hnd.1]
    · have hpq : (p == q) = false :=
        beq_eq_false_iff_ne.mpr (fun h => hnd.1 (h ▸ hpqs))
      simp only [collect_props]
      cases propQuery q with
      | raise e => simp [List.lookup, hpq, ih hnd.2 p hpqs]
      | ok r =>
        by_cases hrc : (r.returncode == 0) = true
        · simp [hrc, List.lookup, hpq, ih hnd.2 p hpqs]
        · rw [Bool.not_eq_true] at hrc
          simp [hrc, ih hnd.2 p hpqs]

/-- Claim C8 counterexample: when the `ro.product.model` query returns a
non-zero exit code (and every other query succeeds), the resulting
descriptor has no `ro.product.model` entry at all — the field is absent,
not set to `unknown` as the claim states — while the other fields are
populated. -/
theorem c8_nonzero_exit_leaves_field_absent :
    ((get_device_info
        (fun p => if p == ("ro.product.model".toList) then Subproc.ok ⟨1, [], []⟩
                  else Subproc.ok ⟨0, ("x".toList), []⟩)
        (Subproc.ok ⟨0, [], []⟩) ("d1".toList)).properties.lookup
          ("ro.product.model".toList) = none)
    ∧ ((get_device_info
        (fun p => if p == ("ro.product.model".toList) then Subproc.ok ⟨1, [], []⟩
                  else Subproc.ok ⟨0, ("x".toList), []⟩)
        (Subproc.ok ⟨0, [], []⟩) ("d1".toList)).properties.lookup
          ("ro.product.brand".toList) = some ("x".toList)) := by
  exact ⟨by decide, by decide⟩

/-- Claim C8 (amended): each of the five property queries fails
independently — a query that raises an exception degrades that single
field to `unknown`, a query returning a non-zero exit code leaves that
field absent, a successful query stores the stripped output — and in every
case the rest of the descriptor is still populated and returned without
error. -/
theorem c8_property_queries_degrade_independently (propQuery : Str → Subproc)
    (wmSize : Subproc) (device_id : Str) (p : Str) (hp : p ∈ properties_list) :
    (get_device_info propQuery wmSize device_id).id = device_id
    ∧ (get_device_info propQuery wmSize device_id).typ = get_device_type propQuery device_id
    ∧ (get_device_info propQuery wmSize device_id).properties.lookup p
      = (match propQuery p with
         | Subproc.raise _ => some ("unknown".toList)
         | Subproc.ok r =>
           if r.returncode == 0 then some (pystrip r.stdout) else none) := by
  refine ⟨rfl, rfl, ?_⟩
  exact collect_props_lookup_mem propQuery properties_list (by decide) p hp

/-- Witness for C8: with every property query raising (a bridge timeout),
the `ro.product.model` field degrades to `unknown` while the descriptor is
still returned with its id and type populated. -/
theorem c8_property_queries_degrade_independently_witness :
    (("ro.product.model".toList) ∈ properties_list)
    ∧ ((get_device_info (fun _ => Subproc.raise ("timeout".toList)) (Subproc.ok ⟨0, [], []⟩)
          ("emulator-5554".toList)).id = ("emulator-5554".toList)
       ∧ (get_device_info (fun _ => Subproc.raise ("timeout".toList)) (Subproc.ok ⟨0, [], []⟩)
            ("emulator-5554".toList)).typ
         = get_device_type (fun _ => Subproc.raise ("timeout".toList)) ("emulator-5554".toList)
       ∧ (get_device_info (fun _ => Subproc.raise ("timeout".toList)) (Subproc.ok ⟨0, [], []⟩)
            ("emulator-5554".toList)).properties.lookup ("ro.product.model".toList)
         = some ("unknown".toList)) :=
  ⟨by decide,
   c8_property_queries_degrade_independently (fun _ => Subproc.raise ("timeout".toList))
     (Subproc.ok ⟨0, [], []⟩) ("emulator-5554".toList) ("ro.product.model".toList) (by decide)⟩

theorem natDigitsRevAux_congr : ∀ f g n : Nat, n < f → n < g →
    natDigitsRevAux f n = natDigitsRevAux g n := by
  intro f
  induction f with
  | zero => intro g n hf _; exact absurd hf (Nat.not_lt_zero n)
  | succ f ih =>
    intro g n hf hg
    cases g with
    | zero => exact absurd hg (Nat.not_lt_zero n)
    | succ g =>
      simp only [natDigitsRevAux]
      by_cases hn : n < 10
      · simp [hn]
      · rw [if_neg hn, if_neg hn]
        have hd : n / 10 < n := Nat.div_lt_self (by omega) (by omega)
        rw [ih g (n / 10) (by omega) (by omega)]

theorem natDigitsRev_eq (n : Nat) :
    natDigitsRev n
      = if n < 10 then [digitChar n] else digitChar (n % 10) :: natDigitsRev (n / 10) := by
  rw [natDigitsRev]
  simp only [natDigitsRevAux]
  by_cases hn : n < 10
  · simp [hn]
  · rw [if_neg hn, if_neg hn]
    have hd : n / 10 < n := Nat.div_lt_self (by omega) (by omega)
    rw [natDigitsRevAux_congr n (n / 10 + 1) (n / 10) (by omega) (by omega)]
    rfl

theorem natDigitsRev_ne_nil (n : Nat) : natDigitsRev n ≠ [] := by
  rw [natDigitsRev_eq]
  by_cases hn : n < 10 <;> simp [hn]

theorem digitChar_inj : ∀ d e : Nat, d < 10 → e < 10 → digitChar d = digitChar e → d = e := by
  intro d e hd he
  interval_cases d <;> interval_cases e <;> decide

theorem natDigitsRev_inj : ∀ n m : Nat, natDigitsRev n = natDigitsRev m → n = m := by
  intro n
  induction n using Nat.strong_induction_on with
  | _ n ih =>
    intro m h
    rw [natDigitsRev_eq n, natDigitsRev_eq m] at h
    by_cases hn : n < 10 <;> by_cases hm : m < 10
    · rw [if_pos hn, if_pos hm] at h
      simp only [List.cons.injEq, and_true] at h
      exact digitChar_inj n m hn hm h
    · rw [if_pos hn, if_neg hm] at h
      simp only [List.cons.injEq] at h
      exact absurd h.2.symm (natDigitsRev_ne_nil (m / 10))
    · rw [if_neg hn, if_pos hm] at h
      simp only [List.cons.injEq] at h
      exact absurd h.2 (natDigitsRev_ne_nil (n / 10))
    · rw [if_neg hn, if_neg hm] at h
      simp only [List.cons.injEq] at h
      have hd : n / 10 < n := Nat.div_lt_self (by omega) (by omega)
      have h10 : n / 10 = m / 10 := ih (n / 10) hd (m / 10) h.2
      have hmod : n % 10 = m % 10 :=
        digitChar_inj (n % 10) (m % 10) (Nat.mod_lt n (by omega)) (Nat.mod_lt m (by omega)) h.1
      omega

theorem natToStr_inj (a b : Nat) (h : natToStr a = natToStr b) : a = b :=
  natDigitsRev_inj a b (List.reverse_injective h)

theorem map_fst_update (k : Str) (v : RegRecord) :
    ∀ d : List (Str × RegRecord),
      ((d.map (fun kv => if kv.1 == k then (k, v) else kv)).map Prod.fst) = d.map Prod.fst := by
  intro d
  induction d with
  | nil => rfl
  | cons kv rest ih =>
    simp only [List.map_cons, ih]
    by_cases hk : (kv.1 == k) = true
    · rw [beq_iff_eq] at hk
      simp [hk]
    · rw [Bool.not_eq_true] at hk
      simp [hk]

theorem pyDictSet_keysUnique (k : Str) (v : RegRecord) (d : List (Str × RegRecord))
    (h : keysUnique d) : keysUnique (pyDictSet k v d) := by
  rw [pyDictSet]
  by_cases hmem : (d.any (fun kv => kv.1 == k)) = true
  · rw [if_pos hmem]
    unfold keysUnique
    rw [map_fst_update]
    exact h
  · rw [Bool.not_eq_true] at hmem
    rw [if_neg (by rw [hmem]; exact Bool.false_ne_true)]
    unfold keysUnique at h ⊢
    rw [List.map_append]
    have hk : k ∉ d.map Prod.fst := by
      intro hkmem
      rcases List.mem_map.mp hkmem with ⟨kv, hkv, hfst⟩
      have hfalse := List.any_eq_false.mp hmem kv hkv
      exact hfalse (by rw [hfst]; exact beq_self_eq_true k)
    simp [List.nodup_append, h, hk]

theorem lookup_cons_eq (k : Str) (kv : Str × RegRecord) (rest : List (Str × RegRecord)) :
    List.lookup k (kv :: rest) = if (k == kv.1) = true then some kv.2 else List.lookup k rest := by
  rcases kv with ⟨a, b⟩
  simp only [List.lookup]
  cases hk : k == a <;> simp

theorem lookup_update_self (k : Str) (v : RegRecord) :
    ∀ d : List (Str × RegRecord),
      ((d.map (fun kv => if kv.1 == k then (k, v) else kv)).lookup k)
        = if d.any (fun kv => kv.1 == k) then some v else none := by
  intro d
  induction d with
  | nil => rfl
  | cons kv rest ih =>
    simp only [List.map_cons, List.any_cons]
    by_cases hk : (kv.1 == k) = true
    · rw [if_pos hk, lookup_cons_eq]
      rw [if_pos (beq_self_eq_true k)]
      simp [hk]
    · rw [Bool.not_eq_true] at hk
      have hk' : (k == kv.1) = false :=
        beq_eq_false_iff_ne.mpr (fun hh => (beq_eq_false_iff_ne.mp hk) hh.symm)
      rw [if_neg (by rw [hk]; exact Bool.false_ne_true), lookup_cons_eq]
      rw [if_neg (by rw [hk']; exact Bool.false_ne_true), ih]
      by_cases hrest : (rest.any (fun kv => kv.1 == k)) = true
      · rw [if_pos hrest, if_pos (by rw [hk, hrest]; rfl)]
      · rw [Bool.not_eq_true] at hrest
        rw [if_neg (by rw [hrest]; exact Bool.false_ne_true),
            if_neg (by rw [hk, hrest]; exact Bool.false_ne_true)]

theorem lookup_not_mem_none : ∀ d : List (Str × RegRecord), ∀ k : Str,
    (d.any (fun kv => kv.1 == k)) = false → d.lookup k = none := by
  intro d
  induction d with
  | nil => intro k _; rfl
  | cons kv rest ih =>
    intro k h
    rw [List.any_cons, Bool.or_eq_false_iff] at h
    have hk' : (k == kv.1) = false :=
      beq_eq_false_iff_ne.mpr (fun hh => (beq_eq_false_iff_ne.mp h.1) hh.symm)
    rw [lookup_cons_eq, if_neg (by rw [hk']; exact Bool.false_ne_true)]
    exact ih k h.2

theorem lookup_append_of_none : ∀ d es : List (Str × RegRecord), ∀ k : Str,
    d.lookup k = none → (d ++ es).lookup k = es.lookup k := by
  intro d
  induction d with
  | nil => intro es k _; rfl
  | cons kv rest ih =>
    intro es k h
    rw [lookup_cons_eq] at h
    by_cases hk : (k == kv.1) = true
    · rw [if_pos hk] at h
      exact absurd h (by simp)
    · rw [Bool.not_eq_true] at hk
      rw [if_neg (by rw [hk]; exact Bool.false_ne_true)] at h
      rw [List.cons_append, lookup_cons_eq,
          if_neg (by rw [hk]; exact Bool.false_ne_true)]
      exact ih es k h

theorem lookup_pyDictSet_self (k : Str) (v : RegRecord) (d : List (Str × RegRecord)) :
    (pyDictSet k v d).lookup k = some v := by
  rw [pyDictSet]
  by_cases hmem : (d.any (fun kv => kv.1 == k)) = true
  · rw [if_pos hmem, lookup_update_self, if_pos hmem]
  · rw [Bool.not_eq_true] at hmem
    rw [if_neg (by rw [hmem]; exact Bool.false_ne_true)]
    rw [lookup_append_of_none d [(k, v)] k (lookup_not_mem_none d k hmem)]
    rw [lookup_cons_eq, if_pos (beq_self_eq_true k)]

theorem register_with_gbox_eq (pmList : Subproc) (st : List (Str × RegRecord))
    (device_id key : Str) (t : Nat)
    (hinst : install_gbox_agent pmList device_id = true) :
    register_with_gbox pmList st device_id key t
      = (some (("gbox_".toList) ++ replaceChar '-' '_' device_id ++ ("_".toList) ++ natToStr t),
         pyDictSet device_id
           ⟨("gbox_".toList) ++ replaceChar '-' '_' device_id ++ ("_".toList) ++ natToStr t,
            t, ("registered".toList)⟩ st) := by
  simp only [register_with_gbox, hinst]
  rfl

/-- Claim C9 counterexample: two registrations of the same device id in
the same clock second (`int(time.time())` equal to 100 both times) both
succeed and return the same session id, contradicting the claim that the
second session id always differs from the first. -/
theorem c9_same_second_session_ids_collide :
    (register_with_gbox (Subproc.ok ⟨0, [], []⟩) [] ("emulator-5554".toList)
        ("k".toList) 100).1.isSome = true
    ∧ (register_with_gbox (Subproc.ok ⟨0, [], []⟩)
         (register_with_gbox (Subproc.ok ⟨0, [], []⟩) [] ("emulator-5554".toList)
           ("k".toList) 100).2
         ("emulator-5554".toList) ("k".toList) 100).1
      = (register_with_gbox (Subproc.ok ⟨0, [], []⟩) [] ("emulator-5554".toList)
          ("k".toList) 100).1 :=
  ⟨by decide, by decide⟩

/-- Claim C9 (amended): re-registering the same device id overwrites the
prior record — the registration map keeps at most one entry per device id
after each call, and the stored record is the second call's — and the two
returned session ids differ whenever the integer-second timestamps of the
two calls differ (they coincide when both calls fall in the same clock
second). -/
theorem c9_register_overwrites_and_ids_differ_across_seconds (pmList : Subproc)
    (st : List (Str × RegRecord)) (device_id key : Str) (t1 t2 : Nat)
    (hu : keysUnique st) (hinst : install_gbox_agent pmList device_id = true)
    (hne : t1 ≠ t2) :
    keysUnique (register_with_gbox pmList st device_id key t1).2
    ∧ keysUnique (register_with_gbox pmList
        (register_with_gbox pmList st device_id key t1).2 device_id key t2).2
    ∧ (register_with_gbox pmList
        (register_with_gbox pmList st device_id key t1).2 device_id key t2).2.lookup device_id
      = some ⟨("gbox_".toList) ++ replaceChar '-' '_' device_id ++ ("_".toList) ++ natToStr t2,
              t2, ("registered".toList)⟩
    ∧ (register_with_gbox pmList st device_id key t1).1
      ≠ (register_with_gbox pmList
          (register_with_gbox pmList st device_id key t1).2 device_id key t2).1 := by
  rw [register_with_gbox_eq pmList st device_id key t1 hinst]
  rw [register_with_gbox_eq pmList _ device_id key t2 hinst]
  refine ⟨pyDictSet_keysUnique _ _ _ hu,
          pyDictSet_keysUnique _ _ _ (pyDictSet_keysUnique _ _ _ hu),
          lookup_pyDictSet_self _ _ _, ?_⟩
  intro h
  have h2 : some (("gbox_".toList) ++ replaceChar '-' '_' device_id
        ++ ("_".toList) ++ natToStr t1)
      = some (("gbox_".toList) ++ replaceChar '-' '_' device_id
        ++ ("_".toList) ++ natToStr t2) := h
  have h3 := Option.some.inj h2
  have h4 := List.append_cancel_left h3
  exact hne (natToStr_inj t1 t2 h4)

/-- Witness for C9 (amended): from an empty map, registering
`emulator-5554` at seconds 1 and then 2 keeps a single entry (the second
record) and returns two distinct session ids. -/
theorem c9_register_overwrites_and_ids_differ_across_seconds_witness :
    (keysUnique ([] : List (Str × RegRecord))
      ∧ install_gbox_agent (Subproc.ok ⟨0, [], []⟩) ("emulator-5554".toList) = true
      ∧ (1 : Nat) ≠ 2)
    ∧ (keysUnique (register_with_gbox (Subproc.ok ⟨0, [], []⟩) []
          ("emulator-5554".toList) ("k".toList) 1).2
       ∧ keysUnique (register_with_gbox (Subproc.ok ⟨0, [], []⟩)
           (register_with_gbox (Subproc.ok ⟨0, [], []⟩) []
             ("emulator-5554".toList) ("k".toList) 1).2
           ("emulator-5554".toList) ("k".toList) 2).2
       ∧ (register_with_gbox (Subproc.ok ⟨0, [], []⟩)
           (register_with_gbox (Subproc.ok ⟨0, [], []⟩) []
             ("emulator-5554".toList) ("k".toList) 1).2
           ("emulator-5554".toList) ("k".toList) 2).2.lookup ("emulator-5554".toList)
         = some ⟨("gbox_".toList) ++ replaceChar '-' '_' ("emulator-5554".toList)
             ++ ("_".toList) ++ natToStr 2, 2, ("registered".toList)⟩
       ∧ (register_with_gbox (Subproc.ok ⟨0, [], []⟩) []
            ("emulator-5554".toList) ("k".toList) 1).1
         ≠ (register_with_gbox (Subproc.ok ⟨0, [], []⟩)
             (register_with_gbox (Subproc.ok ⟨0, [], []⟩) []
               ("emulator-5554".toList) ("k".toList) 1).2
             ("emulator-5554".toList) ("k".toList) 2).1) :=
  ⟨⟨by decide, by decide, by decide⟩,
   c9_register_overwrites_and_ids_differ_across_seconds (Subproc.ok ⟨0, [], []⟩) []
     ("emulator-5554".toList) ("k".toList) 1 2 (by decide) (by decide) (by decide)⟩
